import Mathlib

/-!
Verification of the restaurant-recommendation search layer.

This file gives a shallow embedding of the data model, document builders,
metadata builders, vector-store filter protocol, walking-time estimator and
agent tool layer of the repository (src/search/data_loader.py,
src/search/search.py, src/agent/agent.py), together with theorems settling
the specification claims.

Modelling conventions:
- pandas cells that can be NaN/absent are `Option` values (`none` = NaN/absent,
  matching `pd.notna`); cells that are always present are plain values.
- Python strings are Lean `String`s; Python string comparison, substring test
  (`in`) and `str.split` are re-implemented character-by-character below with
  Python's exact semantics.
- Machine floats of the distance computation are modelled as `Rat`, with the
  transcendental routines (`np.radians`, `np.cos`, `np.sqrt`, `np.round(·,1)`)
  passed in as opaque function parameters, so every definition stays
  executable.
- Fallible Python code (try/except, `if not found: return None`) is modelled
  with `Option`; all Lean definitions are total, which is the embedding of
  "never raises".
-/

/-! ### Python string semantics -/

/-- Python `<=` on strings, character part: lexicographic by Unicode code
point, a strict prefix is smaller. -/
def pyChLe : List Char → List Char → Bool
  | [], _ => true
  | _ :: _, [] => false
  | a :: as, b :: bs =>
    if a.val < b.val then true
    else if b.val < a.val then false
    else pyChLe as bs

/-- Python `s <= t` on strings. -/
def pyStrLe (s t : String) : Bool := pyChLe s.data t.data

/-- Character-list prefix test (auxiliary for the substring test). -/
def chPre : List Char → List Char → Bool
  | [], _ => true
  | _ :: _, [] => false
  | a :: as, b :: bs => a == b && chPre as bs

/-- Character-list substring test (auxiliary for Python `in`). -/
def chSub (p : List Char) : List Char → Bool
  | [] => p.isEmpty
  | l@(_ :: rest) => chPre p l || chSub p rest

/-- Python `needle in hay` on strings. -/
def pyIn (needle hay : String) : Bool := chSub needle.data hay.data

/-- Python `str.split(sep)` for a one-character separator, character part:
splits on every occurrence of the separator and keeps empty fields, so
`"".split(sep) = [""]` and `"a--b".split("-") = ["a", "", "b"]`. -/
def pySplitCh (sep : Char) : List Char → List (List Char)
  | [] => [[]]
  | c :: cs =>
    let r := pySplitCh sep cs
    if c = sep then [] :: r
    else
      match r with
      | x :: xs => (c :: x) :: xs
      | [] => [[c]]

/-- Python `s.split(sep)` for a one-character separator. -/
def pySplit (sep : Char) (s : String) : List String :=
  (pySplitCh sep s.data).map (fun l => String.mk l)

/-- Python `str.lower()` (the keyword matching in this repository is ASCII,
where `Char.toLower` agrees with Python). -/
def pyLower (s : String) : String := String.mk (s.data.map Char.toLower)

/-- Python `str.strip()`: drop whitespace from both ends. -/
def pyStrip (s : String) : String :=
  String.mk (((s.data.dropWhile Char.isWhitespace).reverse.dropWhile
    Char.isWhitespace).reverse)

/-- Python `str(x)` for a cell that is either a string or NaN:
`str(nan) = "nan"`.  (No keyword searched below is a substring of `"nan"`,
so the flag computations are unaffected by this sentinel.) -/
def pyStrNa : Option String → String
  | some s => s
  | none => "nan"

/-! ### Data model (rows of the loader's two DataFrames) -/

/-- One row of the `restaurants` DataFrame returned by `load_restaurant_data`
(src/search/data_loader.py).  `none` models a NaN cell. -/
structure RestaurantRow where
  id : Int
  name : String
  price_level : String
  zone : Option String
  lat : Option Rat
  lng : Option Rat
  description_long : String
  description_short : String
  cuisines : Option String
  dietary_tags : Option String
  services : Option String
  opening_hours : Option String
  has_menu : Bool
  allow_reservations : Bool
  phone : String
  website_url : String
  deriving DecidableEq

/-- One row of the merged `dishes` DataFrame produced by
`load_restaurant_data` (join of restaurant_dishes, dish_keywords and the
restaurant names; src/search/data_loader.py lines 29-46). `name` is the
owning restaurant's name carried by the join. -/
structure DishRow where
  restaurant_id : Int
  dish_id : Int
  weight : Rat
  text : String
  dietary_tags : Option String
  category : String
  name : String
  deriving DecidableEq

/-- A metadata value as stored in a ChromaDB metadata dict. -/
inductive MVal where
  | s (v : String)
  | b (v : Bool)
  | i (v : Int)
  | q (v : Rat)
  deriving DecidableEq

/-- Lookup in a Python dict modelled as an association list (all dicts built
below have pairwise-distinct keys, so first match = the dict entry). -/
def dictGet (k : String) : List (String × MVal) → Option MVal
  | [] => none
  | (a, v) :: rest => if a = k then some v else dictGet k rest

/-! ### Document builder (src/search/data_loader.py, make_restaurant_doc_with_dishes) -/

/-- One optional sentence of the restaurant document:
`f"{pre}{value}." if pd.notna(value) else ""`. -/
def optSentence (pre : String) : Option String → String
  | some v => pre ++ v ++ "."
  | none => ""

/-- The zone part of the document (data_loader.py line 118):
`f"located in the {zone} zone of the mall." if pd.notna(zone) else "."`. -/
def zonePart : Option String → String
  | some z => "located in the " ++ z ++ " zone of the mall."
  | none => "."

/-- One dish line of the document (data_loader.py lines 131-136):
the dish's text, plus its dietary tags in parentheses when present,
prefixed with `"- "`. -/
def dishLine (d : DishRow) : String :=
  "- " ++ d.text ++
    (match d.dietary_tags with
     | some t => " (" ++ t ++ ")"
     | none => "")

/-- Dish selection of the document builder (data_loader.py line 127):
`df_dishes[df_dishes['restaurant_id'] == row['id']].head(top_n)`. -/
def selectTopDishes (df_dishes : List DishRow) (rid : Int) (top_n : Nat) : List DishRow :=
  (df_dishes.filter (fun d => d.restaurant_id == rid)).take top_n

/-- The "Menu highlights" block appended to the parts list
(data_loader.py lines 129-136); empty when the restaurant has no dishes. -/
def dishSection (df_dishes : List DishRow) (rid : Int) (top_n : Nat) : List String :=
  let rest_dishes := selectTopDishes df_dishes rid top_n
  if rest_dishes.length > 0 then "\nMenu highlights:" :: rest_dishes.map dishLine
  else []

/-- The fixed seven base parts of the restaurant document
(data_loader.py lines 116-124).  `description_long or description_short`
is Python truthiness on strings: the long description unless it is empty. -/
def restaurantParts (row : RestaurantRow) : List String :=
  [ row.name ++ " is a " ++ row.price_level ++ "-priced restaurant",
    zonePart row.zone,
    (if row.description_long != "" then row.description_long else row.description_short),
    optSentence "Cuisine types: " row.cuisines,
    optSentence "Dietary options available: " row.dietary_tags,
    optSentence "Services: " row.services,
    optSentence "Open " row.opening_hours ]

/-- `make_restaurant_doc_with_dishes` (data_loader.py lines 103-138):
base parts plus menu highlights, joined by `" ".join(p for p in parts if p)`
(truthiness drops exactly the empty parts). -/
def make_restaurant_doc_with_dishes (row : RestaurantRow) (df_dishes : List DishRow)
    (top_n : Nat := 10) : String :=
  " ".intercalate
    ((restaurantParts row ++ dishSection df_dishes row.id top_n).filter (fun p => p != ""))

/-! ### Metadata builder (src/search/data_loader.py, make_metadata) -/

/-- Opening-hours parsing of `make_metadata` (data_loader.py lines 151-157):
when the hours cell is present (`pd.notna`) and contains a `-`, split on
every `-` and take `times[0].strip()` and `times[1].strip()`; otherwise both
times are the empty string.  Total — never raises. -/
def parseHours : Option String → String × String
  | none => ("", "")
  | some h =>
    if pyIn "-" h then
      let times := pySplit '-' h
      (pyStrip (times.getD 0 ""), pyStrip (times.getD 1 ""))
    else ("", "")

/-- `make_metadata` (data_loader.py lines 141-177), the flat metadata dict of
one restaurant.  Dietary/service flags are case-insensitive substring tests
on the free-text cells (`str(...)` of a NaN cell is `"nan"`). -/
def make_metadata (row : RestaurantRow) : List (String × MVal) :=
  let times := parseHours row.opening_hours
  [ ("restaurant_id", MVal.i row.id),
    ("name", MVal.s row.name),
    ("price_level", MVal.s row.price_level),
    ("zone", MVal.s (match row.zone with | some z => z | none => "")),
    ("latitude", MVal.q (row.lat.getD 0)),
    ("longitude", MVal.q (row.lng.getD 0)),
    ("has_vegetarian", MVal.b (pyIn "vegetarian" (pyLower (pyStrNa row.dietary_tags)))),
    ("has_vegan", MVal.b (pyIn "vegan" (pyLower (pyStrNa row.dietary_tags)))),
    ("has_gluten_free", MVal.b (pyIn "gluten_free" (pyLower (pyStrNa row.dietary_tags)))),
    ("has_menu", MVal.b row.has_menu),
    ("allow_reservations", MVal.b row.allow_reservations),
    ("has_takeaway", MVal.b (pyIn "takeaway" (pyLower (pyStrNa row.services)))),
    ("has_bar", MVal.b (pyIn "bar" (pyLower (pyStrNa row.services)))),
    ("phone", MVal.s row.phone),
    ("website_url", MVal.s row.website_url),
    ("opening_time", MVal.s times.1),
    ("closing_time", MVal.s times.2) ]

/-! ### Spec-side reference definitions for the hours parsing -/

/-- Reference definition following the spec's words: the text of `s` strictly
before the first `-`. -/
def beforeFirstDash (s : String) : String :=
  String.mk (s.data.takeWhile (fun c => c ≠ '-'))

/-- Reference definition following the spec's words: the text of `s` strictly
after the first `-` (everything to the end of the string). -/
def afterFirstDash (s : String) : String :=
  String.mk ((s.data.dropWhile (fun c => c ≠ '-')).drop 1)

/-! ### Dish document/metadata builders

`make_dish_doc` and `make_dish_metadata` are imported by
src/search/__init__.py, src/search/search.py and src/tests/search.py, and
called by `DishVectorStore.index_dishes`, but their definitions are not in
src/search/data_loader.py.  They are therefore modelled from the spec. -/

/-- Modelled from the spec: `make_dish_doc` is missing from
src/search/data_loader.py (only its imports, callers and tests are in src/).
Per spec section 4.2 it is "analogous" to the restaurant document builder,
one dish at a time: the dish's text plus its own dietary tags in
parentheses when present. -/
def make_dish_doc (row : DishRow) : String :=
  row.text ++
    (match row.dietary_tags with
     | some t => " (" ++ t ++ ")"
     | none => "")

/-- Modelled from the spec: `make_dish_metadata` is missing from
src/search/data_loader.py (only its imports, callers and tests are in src/).
Per spec sections 3 and 4.2 it builds the dish's flat metadata record,
"denormalizing restaurant name/zone/price_level onto the dish's metadata so
the dish store can filter on restaurant attributes without a join", plus the
dish identity and its dietary flags (computed like the restaurant flags). -/
def make_dish_metadata (row : DishRow) (df_restaurants : List RestaurantRow) :
    List (String × MVal) :=
  let rest := df_restaurants.find? (fun r => r.id == row.restaurant_id)
  [ ("dish_id", MVal.i row.dish_id),
    ("restaurant_id", MVal.i row.restaurant_id),
    ("restaurant_name", MVal.s (match rest with | some r => r.name | none => row.name)),
    ("zone", MVal.s (match rest with
                     | some r => (match r.zone with | some z => z | none => "")
                     | none => "")),
    ("price_level", MVal.s (match rest with | some r => r.price_level | none => "")),
    ("has_vegetarian", MVal.b (pyIn "vegetarian" (pyLower (pyStrNa row.dietary_tags)))),
    ("has_vegan", MVal.b (pyIn "vegan" (pyLower (pyStrNa row.dietary_tags)))),
    ("has_gluten_free", MVal.b (pyIn "gluten_free" (pyLower (pyStrNa row.dietary_tags)))),
    ("has_halal", MVal.b (pyIn "halal" (pyLower (pyStrNa row.dietary_tags)))),
    ("has_lactose_free", MVal.b (pyIn "lactose_free" (pyLower (pyStrNa row.dietary_tags)))),
    ("category", MVal.s row.category) ]

/-! ### Loader dish sort (src/search/data_loader.py line 46) -/

/-- The sort key of `df_dishes.sort_values(['restaurant_id', 'weight'],
ascending=[True, False])`: restaurant id ascending, then weight descending. -/
def dishLe (a b : DishRow) : Bool :=
  decide (a.restaurant_id < b.restaurant_id) ||
    (a.restaurant_id == b.restaurant_id && decide (b.weight ≤ a.weight))

/-- The loader's dish sort (data_loader.py line 46). -/
def sortDishes (l : List DishRow) : List DishRow :=
  l.mergeSort dishLe

/-! ### Vector store (src/search/search.py, RestaurantVectorStore / DishVectorStore)

The ChromaDB collection is modelled as the list of its indexed entries.  The
embedding model is external to the repository, so similarity ranking is an
opaque parameter `rank : String → List Entry → List Entry` (the collection
reordered by similarity to the query); `collection.query(query_texts=[q],
n_results=n, where=w)` returns the `n` most similar entries among those whose
metadata satisfies the conjunctive exact-match filter `w`. -/

/-- One indexed (id, document, metadata) triple of a collection. -/
structure Entry where
  id : String
  document : String
  metadata : List (String × MVal)
  deriving DecidableEq

/-- One formatted search result (search.py lines 396-404); distances come
from the external embedding model and are not modelled. -/
structure SearchResult where
  id : String
  document : String
  metadata : List (String × MVal)
  deriving DecidableEq

/-- ChromaDB's `where` semantics: a conjunction of exact-match metadata
predicates (spec section 4.3); an empty filter is unconstrained. -/
def matchesWhere (w : List (String × MVal)) (m : List (String × MVal)) : Bool :=
  w.all (fun kv => decide (dictGet kv.1 m = some kv.2))

/-- `collection.query` (search.py lines 97-102 and 223-228): the top
`n_results` entries in similarity order among those matching the filter. -/
def vectorQuery (rank : String → List Entry → List Entry) (coll : List Entry)
    (query : String) (n_results : Nat) (w : List (String × MVal)) : List Entry :=
  ((rank query coll).filter (fun e => matchesWhere w e.metadata)).take n_results

/-- `RestaurantVectorStore.get_by_id` (search.py lines 106-130): exact lookup
of id `"rest_{restaurant_id}"`; `none` models Python's `None` ("not found");
the function is total, which models "never raises" (the Python except-branch
logs and falls through to `return None`). -/
def get_by_id (coll : List Entry) (restaurant_id : Int) : Option SearchResult :=
  (coll.find? (fun e => e.id == "rest_" ++ toString restaurant_id)).map
    (fun e => { id := e.id, document := e.document, metadata := e.metadata })

/-- `RestaurantSearch.get_restaurant_by_name` (search.py lines 420-444):
`collection.get(where={"name": name})`, first matching entry or `None`;
total, which models "never raises". -/
def get_restaurant_by_name (coll : List Entry) (name : String) : Option SearchResult :=
  (coll.find? (fun e => dictGet "name" e.metadata == some (MVal.s name))).map
    (fun e => { id := e.id, document := e.document, metadata := e.metadata })

/-! ### Search Facade filter translation (src/search/search.py, RestaurantSearch) -/

/-- A filter parameter added under Python truthiness (`if price_level:`):
omitted when unset or the empty string. -/
def whereStrTruthy (k : String) : Option String → List (String × MVal)
  | some s => if s = "" then [] else [(k, MVal.s s)]
  | none => []

/-- A boolean filter parameter added under `is not None`: `false` is a real
constraint, only `None` is omitted. -/
def whereBool (k : String) : Option Bool → List (String × MVal)
  | some b => [(k, MVal.b b)]
  | none => []

/-- A numeric filter parameter added under `is not None`. -/
def whereQ (k : String) : Option Rat → List (String × MVal)
  | some v => [(k, MVal.q v)]
  | none => []

/-- A string filter parameter added under `is not None`. -/
def whereStr (k : String) : Option String → List (String × MVal)
  | some s => [(k, MVal.s s)]
  | none => []

/-- The optional filter parameters of `RestaurantSearch.search`
(search.py lines 318-335). -/
structure RestFilters where
  price_level : Option String := none
  zone : Option String := none
  has_vegetarian : Option Bool := none
  has_vegan : Option Bool := none
  has_gluten_free : Option Bool := none
  has_takeaway : Option Bool := none
  has_bar : Option Bool := none
  has_menu : Option Bool := none
  allow_reservations : Option Bool := none
  latitude : Option Rat := none
  longitude : Option Rat := none
  opening_time : Option String := none
  closing_time : Option String := none
  deriving DecidableEq

/-- The `where` dict built by `RestaurantSearch.search` (search.py lines
359-386), one conditional insertion per parameter, in source order.
`price_level` and `zone` are guarded by truthiness, the booleans and the
remaining parameters by `is not None`. -/
def buildWhereRest (f : RestFilters) : List (String × MVal) :=
  whereStrTruthy "price_level" f.price_level ++
  whereStrTruthy "zone" f.zone ++
  whereBool "has_vegetarian" f.has_vegetarian ++
  whereBool "has_vegan" f.has_vegan ++
  whereBool "has_gluten_free" f.has_gluten_free ++
  whereBool "has_takeaway" f.has_takeaway ++
  whereBool "has_bar" f.has_bar ++
  whereBool "has_menu" f.has_menu ++
  whereBool "allow_reservations" f.allow_reservations ++
  whereQ "latitude" f.latitude ++
  whereQ "longitude" f.longitude ++
  whereStr "opening_time" f.opening_time ++
  whereStr "closing_time" f.closing_time

/-- The optional filter parameters of `RestaurantSearch.search_dishes`
(search.py lines 450-463). -/
structure DishFilters where
  restaurant_name : Option String := none
  zone : Option String := none
  price_level : Option String := none
  has_vegetarian : Option Bool := none
  has_vegan : Option Bool := none
  has_gluten_free : Option Bool := none
  has_halal : Option Bool := none
  has_lactose_free : Option Bool := none
  category : Option String := none
  deriving DecidableEq

/-- The `where` dict built by `RestaurantSearch.search_dishes`
(search.py lines 483-502), in source order. -/
def buildWhereDish (g : DishFilters) : List (String × MVal) :=
  whereStrTruthy "restaurant_name" g.restaurant_name ++
  whereStrTruthy "zone" g.zone ++
  whereStrTruthy "price_level" g.price_level ++
  whereBool "has_vegetarian" g.has_vegetarian ++
  whereBool "has_vegan" g.has_vegan ++
  whereBool "has_gluten_free" g.has_gluten_free ++
  whereBool "has_halal" g.has_halal ++
  whereBool "has_lactose_free" g.has_lactose_free ++
  whereStrTruthy "category" g.category

/-- `RestaurantSearch.search` (search.py lines 318-406): build the `where`
dict, query the restaurant store, format the hits. -/
def RestaurantSearch.search (rank : String → List Entry → List Entry)
    (coll : List Entry) (query : String) (n_results : Nat) (f : RestFilters) :
    List SearchResult :=
  (vectorQuery rank coll query n_results (buildWhereRest f)).map
    (fun e => { id := e.id, document := e.document, metadata := e.metadata })

/-- `RestaurantSearch.search_dishes` (search.py lines 450-522): build the
`where` dict, query the dish store, format the hits. -/
def RestaurantSearch.search_dishes (rank : String → List Entry → List Entry)
    (coll : List Entry) (query : String) (n_results : Nat) (g : DishFilters) :
    List SearchResult :=
  (vectorQuery rank coll query n_results (buildWhereDish g)).map
    (fun e => { id := e.id, document := e.document, metadata := e.metadata })

/-! ### Agent tool layer (src/agent/agent.py) -/

/-- Python truthiness of an optional bool parameter defaulting to `None`. -/
def pyTruthyOB : Option Bool → Bool
  | some b => b
  | none => false

/-- Python truthiness of an optional string parameter defaulting to `None`. -/
def pyTruthyOS : Option String → Bool
  | some s => s != ""
  | none => false

/-- The parameters of the `search_restaurants` tool (agent.py lines 48-62). -/
structure ToolParams where
  n_results : Nat := 3
  price_level : Option String := none
  zone : Option String := none
  has_vegetarian : Option Bool := none
  has_vegan : Option Bool := none
  has_gluten_free : Option Bool := none
  has_takeaway : Option Bool := none
  has_bar : Option Bool := none
  has_menu : Option Bool := none
  allow_reservations : Option Bool := none
  open_now : Option Bool := none
  open_at_time : Option String := none
  deriving DecidableEq

/-- The `filter_kwargs` forwarding of the tool (agent.py lines 74-93): string
parameters are forwarded under truthiness, boolean parameters under
`is not None`; a kwarg not forwarded leaves the facade's default `None`. -/
def buildFilterKwargs (p : ToolParams) : RestFilters :=
  { price_level := match p.price_level with
      | some s => if s = "" then none else some s
      | none => none,
    zone := match p.zone with
      | some s => if s = "" then none else some s
      | none => none,
    has_vegetarian := p.has_vegetarian,
    has_vegan := p.has_vegan,
    has_gluten_free := p.has_gluten_free,
    has_takeaway := p.has_takeaway,
    has_bar := p.has_bar,
    has_menu := p.has_menu,
    allow_reservations := p.allow_reservations }

/-- The check time of the post-filter (agent.py line 101):
`open_at_time if open_at_time else datetime.now(madrid_tz).strftime("%H:%M")`;
`now` is the current Madrid wall-clock "HH:MM" string. -/
def checkTime (open_at_time : Option String) (now : String) : String :=
  match open_at_time with
  | some s => if s = "" then now else s
  | none => now

/-- Reading `meta.get(key, '')` for a key whose stored value is a string. -/
def metaGetStr (m : List (String × MVal)) (k : String) : String :=
  match dictGet k m with
  | some (MVal.s v) => v
  | _ => ""

/-- Reading `meta[key]` for a key whose stored value is a number
(`latitude` / `longitude`, always present as `Rat` by construction). -/
def metaGetQ (m : List (String × MVal)) (k : String) : Rat :=
  match dictGet k m with
  | some (MVal.q v) => v
  | _ => 0

/-- The time-window post-filter of `search_restaurants` (agent.py lines
103-112): keep a result only when both time strings are non-empty (truthy)
and `opening <= check_time <= closing` under Python string comparison. -/
def timeWindowFilter (check_time : String) (results : List SearchResult) :
    List SearchResult :=
  results.filter (fun r =>
    let opening := metaGetStr r.metadata "opening_time"
    let closing := metaGetStr r.metadata "closing_time"
    opening != "" && closing != "" &&
      pyStrLe opening check_time && pyStrLe check_time closing)

/-- The result list of the `search_restaurants` tool before formatting
(agent.py lines 96-112): facade search, then the time post-filter applied
only when `open_now or open_at_time` is truthy. -/
def search_restaurants_results (rank : String → List Entry → List Entry)
    (coll : List Entry) (now : String) (query : String) (p : ToolParams) :
    List SearchResult :=
  let results := RestaurantSearch.search rank coll query p.n_results (buildFilterKwargs p)
  if pyTruthyOB p.open_now || pyTruthyOS p.open_at_time then
    timeWindowFilter (checkTime p.open_at_time now) results
  else results

/-- The result formatting of `search_restaurants` (agent.py lines 115-132). -/
def formatRestaurants (results : List SearchResult) : String :=
  "<valid>\n" ++
    String.join (results.map (fun r =>
      "\n## " ++ metaGetStr r.metadata "name" ++ "\n" ++ r.document ++ "\n" ++
      (let ph := metaGetStr r.metadata "phone"
       if ph != "" then "Phone: " ++ ph ++ "\n" else "") ++
      (let wb := metaGetStr r.metadata "website_url"
       if wb != "" then "Website: " ++ wb ++ "\n" else ""))) ++
    "</valid>"

/-- The full `search_restaurants` tool (agent.py lines 48-132). -/
def search_restaurants (rank : String → List Entry → List Entry)
    (coll : List Entry) (now : String) (query : String) (p : ToolParams) : String :=
  formatRestaurants (search_restaurants_results rank coll now query p)

/-! ### Walking-time estimator (src/agent/agent.py, get_walking_time)

The numpy routines `np.radians`, `np.cos`, `np.sqrt` and `np.round(·, 1)`
are opaque function parameters `radians`, `cos`, `sqrt`, `round1`; the float
arithmetic is modelled exactly over `Rat`. -/

/-- The distance/time computation of `get_walking_time`
(agent.py lines 167-174), translated from the source. -/
def walking_time_minutes (radians cos sqrt : Rat → Rat)
    (from_lat from_lon to_lat to_lon : Rat) : Rat :=
  let avg_lat := radians ((from_lat + to_lat) / 2)
  let lat_m := (to_lat - from_lat) * 111320
  let lon_m := (to_lon - from_lon) * 111320 * cos avg_lat
  let distance_m := sqrt (lat_m ^ 2 + lon_m ^ 2)
  distance_m / 69

/-- Reference definition following the spec's words (spec section 4.5 and
claim C9): latitude delta in meters is the latitude difference in degrees
times 111320; longitude delta in meters is the longitude difference in
degrees times 111320 times the cosine of the mean latitude in radians;
the distance is the Euclidean combination of the two deltas; minutes is
the distance divided by the fixed walking speed 69 meters/minute. -/
def spec_walking_minutes (radians cos sqrt : Rat → Rat)
    (from_lat from_lon to_lat to_lon : Rat) : Rat :=
  let dlat_m := (to_lat - from_lat) * 111320
  let dlon_m := (to_lon - from_lon) * 111320 * cos (radians ((from_lat + to_lat) / 2))
  sqrt (dlat_m ^ 2 + dlon_m ^ 2) / 69

/-- Name resolution and time computation of `get_walking_time`
(agent.py lines 150-176): resolve both names in the restaurant store, and
when both resolve, compute the rounded walking minutes from the metadata
coordinates; `none` models the "Restaurant not found" early return. -/
def get_walking_time_core (radians cos sqrt round1 : Rat → Rat)
    (coll : List Entry) (from_restaurant to_restaurant : String) : Option Rat :=
  match get_restaurant_by_name coll from_restaurant,
        get_restaurant_by_name coll to_restaurant with
  | some f, some t =>
    some (round1 (walking_time_minutes radians cos sqrt
      (metaGetQ f.metadata "latitude") (metaGetQ f.metadata "longitude")
      (metaGetQ t.metadata "latitude") (metaGetQ t.metadata "longitude")))
  | _, _ => none

/-- The full `get_walking_time` tool (agent.py lines 135-176); the numeric
rendering of the rounded float is modelled by `toString` on `Rat`. -/
def get_walking_time (radians cos sqrt round1 : Rat → Rat)
    (coll : List Entry) (from_restaurant to_restaurant : String) : String :=
  match get_walking_time_core radians cos sqrt round1 coll from_restaurant to_restaurant with
  | some m =>
    "<valid>\nWalking time from " ++ from_restaurant ++ " to " ++ to_restaurant ++
      ": " ++ toString m ++ " minutes\n</valid>"
  | none => "Restaurant not found"

/-! ### Concrete example data for witnesses -/

/-- Similarity ranking that keeps the collection order (a legitimate
instantiation of the opaque embedding model). -/
def rank1 : String → List Entry → List Entry := fun _ c => c

/-- Example restaurant row. -/
def exRow : RestaurantRow :=
  { id := 1, name := "Andreu", price_level := "low", zone := some "north",
    lat := some 41, lng := some 2,
    description_long := "Classic deli", description_short := "Deli",
    cuisines := some "Catalan", dietary_tags := some "vegan, vegetarian",
    services := some "takeaway", opening_hours := some "10:00-22:00",
    has_menu := true, allow_reservations := false,
    phone := "123", website_url := "http://a" }

/-- Example indexed restaurant entry. -/
def exEntry : Entry :=
  { id := "rest_1", document := make_restaurant_doc_with_dishes exRow [],
    metadata := make_metadata exRow }

/-- Example restaurant search result (the formatted `exEntry`). -/
def exResult : SearchResult :=
  { id := "rest_1", document := make_restaurant_doc_with_dishes exRow [],
    metadata := make_metadata exRow }

/-- Example dish row. -/
def exDish : DishRow :=
  { restaurant_id := 1, dish_id := 7, weight := 5, text := "Vegan burger",
    dietary_tags := some "vegan", category := "main", name := "Andreu" }

/-- Example indexed dish entry. -/
def exDishEntry : Entry :=
  { id := "dish_1_7", document := make_dish_doc exDish,
    metadata := make_dish_metadata exDish [exRow] }

/-- Example dish search result (the formatted `exDishEntry`). -/
def exDishResult : SearchResult :=
  { id := "dish_1_7", document := make_dish_doc exDish,
    metadata := make_dish_metadata exDish [exRow] }

/-- Restaurant filters with every boolean parameter set (mixed polarity). -/
def fAll : RestFilters :=
  { has_vegetarian := some true, has_vegan := some true, has_gluten_free := some false,
    has_takeaway := some true, has_bar := some false, has_menu := some true,
    allow_reservations := some false }

/-- Dish filters with every boolean parameter set (mixed polarity). -/
def gAll : DishFilters :=
  { has_vegetarian := some false, has_vegan := some true, has_gluten_free := some false,
    has_halal := some false, has_lactose_free := some false }

/-- Tool parameters used by the C2 witness: an explicit open_at_time. -/
def pOpen : ToolParams := { open_at_time := some "12:00" }

/-- Restaurant row with absent zone and all optional text fields absent,
used to refute C5 as stated. -/
def exRowNoZone : RestaurantRow :=
  { id := 2, name := "Foo", price_level := "low", zone := none, lat := none, lng := none,
    description_long := "Nice place", description_short := "Nice",
    cuisines := none, dietary_tags := none, services := none, opening_hours := none,
    has_menu := false, allow_reservations := false, phone := "", website_url := "" }

/-- Restaurant row whose opening-hours text contains two dashes, used to
refute C6 as stated. -/
def exRowTwoDash : RestaurantRow :=
  { id := 4, name := "Split", price_level := "low", zone := none, lat := none, lng := none,
    description_long := "d", description_short := "d",
    cuisines := none, dietary_tags := none, services := none,
    opening_hours := some "10:00-14:00-20:00",
    has_menu := false, allow_reservations := false, phone := "", website_url := "" }

/-- Restaurant row with unresolved geo (null lat/lng), indexed anyway. -/
def exRowNoGeo : RestaurantRow :=
  { id := 5, name := "Lost", price_level := "low", zone := none, lat := none, lng := none,
    description_long := "d", description_short := "d",
    cuisines := none, dietary_tags := none, services := none, opening_hours := none,
    has_menu := false, allow_reservations := false, phone := "", website_url := "" }

/-- Indexed entry of the geo-less restaurant. -/
def exGeoEntry : Entry :=
  { id := "rest_5", document := "d", metadata := make_metadata exRowNoGeo }

/-- The geo-less restaurant as a lookup result. -/
def exGeoResult : SearchResult :=
  { id := "rest_5", document := "d", metadata := make_metadata exRowNoGeo }

/-! ### Helper lemmas: membership in the built filter predicates -/

theorem mem_whereStrTruthy {kv : String × MVal} {k : String} {o : Option String} :
    kv ∈ whereStrTruthy k o ↔ ∃ s, o = some s ∧ ¬ s = "" ∧ kv = (k, MVal.s s) := by
  cases o with
  | none => simp [whereStrTruthy]
  | some s => by_cases hs : s = "" <;> simp [whereStrTruthy, hs]

theorem mem_whereBool {kv : String × MVal} {k : String} {o : Option Bool} :
    kv ∈ whereBool k o ↔ ∃ b, o = some b ∧ kv = (k, MVal.b b) := by
  cases o <;> simp [whereBool]

theorem mem_whereQ {kv : String × MVal} {k : String} {o : Option Rat} :
    kv ∈ whereQ k o ↔ ∃ v, o = some v ∧ kv = (k, MVal.q v) := by
  cases o <;> simp [whereQ]

theorem mem_whereStr {kv : String × MVal} {k : String} {o : Option String} :
    kv ∈ whereStr k o ↔ ∃ s, o = some s ∧ kv = (k, MVal.s s) := by
  cases o <;> simp [whereStr]

theorem mem_bwr_has_vegetarian {f : RestFilters} {v : MVal} :
    ("has_vegetarian", v) ∈ buildWhereRest f ↔
      ∃ b, f.has_vegetarian = some b ∧ v = MVal.b b := by
  simp [buildWhereRest, List.mem_append, mem_whereStrTruthy, mem_whereBool, mem_whereQ,
    mem_whereStr]

theorem mem_bwr_has_vegan {f : RestFilters} {v : MVal} :
    ("has_vegan", v) ∈ buildWhereRest f ↔ ∃ b, f.has_vegan = some b ∧ v = MVal.b b := by
  simp [buildWhereRest, List.mem_append, mem_whereStrTruthy, mem_whereBool, mem_whereQ,
    mem_whereStr]

theorem mem_bwr_has_gluten_free {f : RestFilters} {v : MVal} :
    ("has_gluten_free", v) ∈ buildWhereRest f ↔
      ∃ b, f.has_gluten_free = some b ∧ v = MVal.b b := by
  simp [buildWhereRest, List.mem_append, mem_whereStrTruthy, mem_whereBool, mem_whereQ,
    mem_whereStr]

theorem mem_bwr_has_takeaway {f : RestFilters} {v : MVal} :
    ("has_takeaway", v) ∈ buildWhereRest f ↔ ∃ b, f.has_takeaway = some b ∧ v = MVal.b b := by
  simp [buildWhereRest, List.mem_append, mem_whereStrTruthy, mem_whereBool, mem_whereQ,
    mem_whereStr]

theorem mem_bwr_has_bar {f : RestFilters} {v : MVal} :
    ("has_bar", v) ∈ buildWhereRest f ↔ ∃ b, f.has_bar = some b ∧ v = MVal.b b := by
  simp [buildWhereRest, List.mem_append, mem_whereStrTruthy, mem_whereBool, mem_whereQ,
    mem_whereStr]

theorem mem_bwr_has_menu {f : RestFilters} {v : MVal} :
    ("has_menu", v) ∈ buildWhereRest f ↔ ∃ b, f.has_menu = some b ∧ v = MVal.b b := by
  simp [buildWhereRest, List.mem_append, mem_whereStrTruthy, mem_whereBool, mem_whereQ,
    mem_whereStr]

theorem mem_bwr_allow_reservations {f : RestFilters} {v : MVal} :
    ("allow_reservations", v) ∈ buildWhereRest f ↔
      ∃ b, f.allow_reservations = some b ∧ v = MVal.b b := by
  simp [buildWhereRest, List.mem_append, mem_whereStrTruthy, mem_whereBool, mem_whereQ,
    mem_whereStr]

theorem mem_bwd_has_vegetarian {g : DishFilters} {v : MVal} :
    ("has_vegetarian", v) ∈ buildWhereDish g ↔
      ∃ b, g.has_vegetarian = some b ∧ v = MVal.b b := by
  simp [buildWhereDish, List.mem_append, mem_whereStrTruthy, mem_whereBool]

theorem mem_bwd_has_vegan {g : DishFilters} {v : MVal} :
    ("has_vegan", v) ∈ buildWhereDish g ↔ ∃ b, g.has_vegan = some b ∧ v = MVal.b b := by
  simp [buildWhereDish, List.mem_append, mem_whereStrTruthy, mem_whereBool]

theorem mem_bwd_has_gluten_free {g : DishFilters} {v : MVal} :
    ("has_gluten_free", v) ∈ buildWhereDish g ↔
      ∃ b, g.has_gluten_free = some b ∧ v = MVal.b b := by
  simp [buildWhereDish, List.mem_append, mem_whereStrTruthy, mem_whereBool]

theorem mem_bwd_has_halal {g : DishFilters} {v : MVal} :
    ("has_halal", v) ∈ buildWhereDish g ↔ ∃ b, g.has_halal = some b ∧ v = MVal.b b := by
  simp [buildWhereDish, List.mem_append, mem_whereStrTruthy, mem_whereBool]

theorem mem_bwd_has_lactose_free {g : DishFilters} {v : MVal} :
    ("has_lactose_free", v) ∈ buildWhereDish g ↔
      ∃ b, g.has_lactose_free = some b ∧ v = MVal.b b := by
  simp [buildWhereDish, List.mem_append, mem_whereStrTruthy, mem_whereBool]

/-! ### Helper lemmas: results of a filtered query satisfy the filter -/

theorem matchesWhere_dictGet {w m : List (String × MVal)} {k : String} {v : MVal}
    (hw : matchesWhere w m = true) (hkv : (k, v) ∈ w) : dictGet k m = some v := by
  have h := List.all_eq_true.mp hw (k, v) hkv
  simpa using h

theorem search_mem_matches {rank : String → List Entry → List Entry} {coll : List Entry}
    {query : String} {n : Nat} {f : RestFilters} {r : SearchResult}
    (h : r ∈ RestaurantSearch.search rank coll query n f) :
    matchesWhere (buildWhereRest f) r.metadata = true := by
  simp only [RestaurantSearch.search, vectorQuery] at h
  obtain ⟨e, he, rfl⟩ := List.mem_map.mp h
  exact (List.mem_filter.mp (List.take_subset _ _ he)).2

theorem search_dishes_mem_matches {rank : String → List Entry → List Entry}
    {coll : List Entry} {query : String} {n : Nat} {g : DishFilters} {r : SearchResult}
    (h : r ∈ RestaurantSearch.search_dishes rank coll query n g) :
    matchesWhere (buildWhereDish g) r.metadata = true := by
  simp only [RestaurantSearch.search_dishes, vectorQuery] at h
  obtain ⟨e, he, rfl⟩ := List.mem_map.mp h
  exact (List.mem_filter.mp (List.take_subset _ _ he)).2

/-! ### Claim C3 -/

/-- C3: for every boolean filter parameter has_X of the Facade's restaurant
and dish search, a parameter left unset (None) is omitted from the store's
conjunctive filter predicate, while has_X=false is translated to a real
constraint: with has_X = some b every metadata record returned by the
filtered query has has_X == b (so has_X=true forces true and has_X=false
forces false, not merely unset). -/
theorem claim_C3 (rank : String → List Entry → List Entry) (coll dcoll : List Entry)
    (query : String) (n m : Nat) (f : RestFilters) (g : DishFilters) :
    ((f.has_vegetarian = none → ∀ v, ("has_vegetarian", v) ∉ buildWhereRest f) ∧
     (f.has_vegan = none → ∀ v, ("has_vegan", v) ∉ buildWhereRest f) ∧
     (f.has_gluten_free = none → ∀ v, ("has_gluten_free", v) ∉ buildWhereRest f) ∧
     (f.has_takeaway = none → ∀ v, ("has_takeaway", v) ∉ buildWhereRest f) ∧
     (f.has_bar = none → ∀ v, ("has_bar", v) ∉ buildWhereRest f) ∧
     (f.has_menu = none → ∀ v, ("has_menu", v) ∉ buildWhereRest f) ∧
     (f.allow_reservations = none → ∀ v, ("allow_reservations", v) ∉ buildWhereRest f) ∧
     (g.has_vegetarian = none → ∀ v, ("has_vegetarian", v) ∉ buildWhereDish g) ∧
     (g.has_vegan = none → ∀ v, ("has_vegan", v) ∉ buildWhereDish g) ∧
     (g.has_gluten_free = none → ∀ v, ("has_gluten_free", v) ∉ buildWhereDish g) ∧
     (g.has_halal = none → ∀ v, ("has_halal", v) ∉ buildWhereDish g) ∧
     (g.has_lactose_free = none → ∀ v, ("has_lactose_free", v) ∉ buildWhereDish g)) ∧
    ((∀ b r, f.has_vegetarian = some b →
        r ∈ RestaurantSearch.search rank coll query n f →
        dictGet "has_vegetarian" r.metadata = some (MVal.b b)) ∧
     (∀ b r, f.has_vegan = some b →
        r ∈ RestaurantSearch.search rank coll query n f →
        dictGet "has_vegan" r.metadata = some (MVal.b b)) ∧
     (∀ b r, f.has_gluten_free = some b →
        r ∈ RestaurantSearch.search rank coll query n f →
        dictGet "has_gluten_free" r.metadata = some (MVal.b b)) ∧
     (∀ b r, f.has_takeaway = some b →
        r ∈ RestaurantSearch.search rank coll query n f →
        dictGet "has_takeaway" r.metadata = some (MVal.b b)) ∧
     (∀ b r, f.has_bar = some b →
        r ∈ RestaurantSearch.search rank coll query n f →
        dictGet "has_bar" r.metadata = some (MVal.b b)) ∧
     (∀ b r, f.has_menu = some b →
        r ∈ RestaurantSearch.search rank coll query n f →
        dictGet "has_menu" r.metadata = some (MVal.b b)) ∧
     (∀ b r, f.allow_reservations = some b →
        r ∈ RestaurantSearch.search rank coll query n f →
        dictGet "allow_reservations" r.metadata = some (MVal.b b)) ∧
     (∀ b r, g.has_vegetarian = some b →
        r ∈ RestaurantSearch.search_dishes rank dcoll query m g →
        dictGet "has_vegetarian" r.metadata = some (MVal.b b)) ∧
     (∀ b r, g.has_vegan = some b →
        r ∈ RestaurantSearch.search_dishes rank dcoll query m g →
        dictGet "has_vegan" r.metadata = some (MVal.b b)) ∧
     (∀ b r, g.has_gluten_free = some b →
        r ∈ RestaurantSearch.search_dishes rank dcoll query m g →
        dictGet "has_gluten_free" r.metadata = some (MVal.b b)) ∧
     (∀ b r, g.has_halal = some b →
        r ∈ RestaurantSearch.search_dishes rank dcoll query m g →
        dictGet "has_halal" r.metadata = some (MVal.b b)) ∧
     (∀ b r, g.has_lactose_free = some b →
        r ∈ RestaurantSearch.search_dishes rank dcoll query m g →
        dictGet "has_lactose_free" r.metadata = some (MVal.b b))) := by
  constructor
  · refine ⟨?_, ?_, ?_, ?_, ?_, ?_, ?_, ?_, ?_, ?_, ?_, ?_⟩
    · intro h v hv; rw [mem_bwr_has_vegetarian] at hv; simp [h] at hv
    · intro h v hv; rw [mem_bwr_has_vegan] at hv; simp [h] at hv
    · intro h v hv; rw [mem_bwr_has_gluten_free] at hv; simp [h] at hv
    · intro h v hv; rw [mem_bwr_has_takeaway] at hv; simp [h] at hv
    · intro h v hv; rw [mem_bwr_has_bar] at hv; simp [h] at hv
    · intro h v hv; rw [mem_bwr_has_menu] at hv; simp [h] at hv
    · intro h v hv; rw [mem_bwr_allow_reservations] at hv; simp [h] at hv
    · intro h v hv; rw [mem_bwd_has_vegetarian] at hv; simp [h] at hv
    · intro h v hv; rw [mem_bwd_has_vegan] at hv; simp [h] at hv
    · intro h v hv; rw [mem_bwd_has_gluten_free] at hv; simp [h] at hv
    · intro h v hv; rw [mem_bwd_has_halal] at hv; simp [h] at hv
    · intro h v hv; rw [mem_bwd_has_lactose_free] at hv; simp [h] at hv
  · refine ⟨?_, ?_, ?_, ?_, ?_, ?_, ?_, ?_, ?_, ?_, ?_, ?_⟩
    · intro b r hb hr
      exact matchesWhere_dictGet (search_mem_matches hr)
        (mem_bwr_has_vegetarian.mpr ⟨b, hb, rfl⟩)
    · intro b r hb hr
      exact matchesWhere_dictGet (search_mem_matches hr)
        (mem_bwr_has_vegan.mpr ⟨b, hb, rfl⟩)
    · intro b r hb hr
      exact matchesWhere_dictGet (search_mem_matches hr)
        (mem_bwr_has_gluten_free.mpr ⟨b, hb, rfl⟩)
    · intro b r hb hr
      exact matchesWhere_dictGet (search_mem_matches hr)
        (mem_bwr_has_takeaway.mpr ⟨b, hb, rfl⟩)
    · intro b r hb hr
      exact matchesWhere_dictGet (search_mem_matches hr)
        (mem_bwr_has_bar.mpr ⟨b, hb, rfl⟩)
    · intro b r hb hr
      exact matchesWhere_dictGet (search_mem_matches hr)
        (mem_bwr_has_menu.mpr ⟨b, hb, rfl⟩)
    · intro b r hb hr
      exact matchesWhere_dictGet (search_mem_matches hr)
        (mem_bwr_allow_reservations.mpr ⟨b, hb, rfl⟩)
    · intro b r hb hr
      exact matchesWhere_dictGet (search_dishes_mem_matches hr)
        (mem_bwd_has_vegetarian.mpr ⟨b, hb, rfl⟩)
    · intro b r hb hr
      exact matchesWhere_dictGet (search_dishes_mem_matches hr)
        (mem_bwd_has_vegan.mpr ⟨b, hb, rfl⟩)
    · intro b r hb hr
      exact matchesWhere_dictGet (search_dishes_mem_matches hr)
        (mem_bwd_has_gluten_free.mpr ⟨b, hb, rfl⟩)
    · intro b r hb hr
      exact matchesWhere_dictGet (search_dishes_mem_matches hr)
        (mem_bwd_has_halal.mpr ⟨b, hb, rfl⟩)
    · intro b r hb hr
      exact matchesWhere_dictGet (search_dishes_mem_matches hr)
        (mem_bwd_has_lactose_free.mpr ⟨b, hb, rfl⟩)

set_option maxRecDepth 16384 in
/-- Witness for C3: a concrete filtered search whose returned record carries
exactly the requested flag values, including a false constraint. -/
theorem claim_C3_witness :
    exResult ∈ RestaurantSearch.search rank1 [exEntry] "vegan" 3 fAll ∧
    dictGet "has_vegan" exResult.metadata = some (MVal.b true) ∧
    dictGet "has_gluten_free" exResult.metadata = some (MVal.b false) ∧
    exDishResult ∈ RestaurantSearch.search_dishes rank1 [exDishEntry] "vegan" 5 gAll ∧
    dictGet "has_vegan" exDishResult.metadata = some (MVal.b true) ∧
    dictGet "has_vegetarian" exDishResult.metadata = some (MVal.b false) := by
  have hmem : exResult ∈ RestaurantSearch.search rank1 [exEntry] "vegan" 3 fAll := by
    decide
  have hdmem : exDishResult ∈ RestaurantSearch.search_dishes rank1 [exDishEntry] "vegan" 5 gAll := by
    decide
  have hc := (claim_C3 rank1 [exEntry] [exDishEntry] "vegan" 3 5 fAll gAll).2
  obtain ⟨hrv, hrvg, hrgf, hrt, hrb, hrm, hra, hdv, hdvg, hdgf, hdh, hdl⟩ := hc
  exact ⟨hmem, hrvg true exResult rfl hmem, hrgf false exResult rfl hmem,
    hdmem, hdvg true exDishResult rfl hdmem, hdv false exDishResult rfl hdmem⟩

/-! ### Claim C2 -/

/-- C2: whenever the time post-filter of the search_restaurants tool applies
(explicit open_at_time, or the current wall-clock time when open_now is
truthy), every restaurant in the result satisfies
opening_time <= T <= closing_time under Python's lexicographic string
comparison, a restaurant with an empty opening or closing time never
appears, and — the filter being applied after the top-k similarity query —
the result count can only shrink from the at-most-n_results hits. -/
theorem claim_C2 (rank : String → List Entry → List Entry) (coll : List Entry)
    (now query : String) (p : ToolParams)
    (hcond : (pyTruthyOB p.open_now || pyTruthyOS p.open_at_time) = true) :
    (∀ r ∈ search_restaurants_results rank coll now query p,
       metaGetStr r.metadata "opening_time" ≠ "" ∧
       metaGetStr r.metadata "closing_time" ≠ "" ∧
       pyStrLe (metaGetStr r.metadata "opening_time") (checkTime p.open_at_time now) = true ∧
       pyStrLe (checkTime p.open_at_time now) (metaGetStr r.metadata "closing_time") = true) ∧
    (search_restaurants_results rank coll now query p).length ≤
      (RestaurantSearch.search rank coll query p.n_results (buildFilterKwargs p)).length ∧
    (RestaurantSearch.search rank coll query p.n_results (buildFilterKwargs p)).length ≤
      p.n_results := by
  refine ⟨?_, ?_, ?_⟩
  · intro r hr
    rw [search_restaurants_results, if_pos hcond] at hr
    have hmem := (List.mem_filter.mp hr).2
    simp only [Bool.and_eq_true, bne_iff_ne, ne_eq] at hmem
    exact ⟨hmem.1.1.1, hmem.1.1.2, hmem.1.2, hmem.2⟩
  · rw [search_restaurants_results, if_pos hcond]
    exact List.length_filter_le _ _
  · rw [RestaurantSearch.search, List.length_map, vectorQuery, List.length_take]
    exact Nat.min_le_left _ _

set_option maxRecDepth 16384 in
/-- Witness for C2: a concrete open_at_time query whose surviving result has
non-empty hours bracketing the target time. -/
theorem claim_C2_witness :
    exResult ∈ search_restaurants_results rank1 [exEntry] "09:00" "food" pOpen ∧
    metaGetStr exResult.metadata "opening_time" ≠ "" ∧
    metaGetStr exResult.metadata "closing_time" ≠ "" ∧
    pyStrLe (metaGetStr exResult.metadata "opening_time")
      (checkTime pOpen.open_at_time "09:00") = true ∧
    pyStrLe (checkTime pOpen.open_at_time "09:00")
      (metaGetStr exResult.metadata "closing_time") = true := by
  have hmem : exResult ∈ search_restaurants_results rank1 [exEntry] "09:00" "food" pOpen := by
    decide
  have h := (claim_C2 rank1 [exEntry] "09:00" "food" pOpen (by decide)).1 exResult hmem
  exact ⟨hmem, h.1, h.2.1, h.2.2.1, h.2.2.2⟩

/-! ### Claim C10 -/

/-- C10: calling the search_restaurants tool with open_now=False and
open_at_time unset applies no time-window post-filter at all — the output is
identical to the same call with open_now unset; open_now=False behaves as
"don't care", not as a constraint. -/
theorem claim_C10 (rank : String → List Entry → List Entry) (coll : List Entry)
    (now query : String) (p : ToolParams) :
    search_restaurants rank coll now query
      { p with open_now := some false, open_at_time := none } =
    search_restaurants rank coll now query
      { p with open_now := none, open_at_time := none } := by
  rfl

/-! ### Claim C5 -/

/-- Counterexample to C5 as stated: a row with an absent (NaN) zone produces
a document containing the placeholder part "." — one character of
punctuation, not zero characters — so the document differs from the
zero-contribution rendering. -/
theorem claim_C5_counterexample :
    make_restaurant_doc_with_dishes exRowNoZone [] =
      "Foo is a low-priced restaurant . Nice place" ∧
    make_restaurant_doc_with_dishes exRowNoZone [] ≠
      "Foo is a low-priced restaurant Nice place" ∧
    zonePart exRowNoZone.zone = "." := by
  refine ⟨by decide, by decide, rfl⟩

theorem filter_drop_empty (l1 l2 : List String) :
    (l1 ++ "" :: l2).filter (fun p => p != "") = (l1 ++ l2).filter (fun p => p != "") := by
  rw [List.filter_append, List.filter_append, List.filter_cons]
  simp

/-- C5 amended: each absent (NaN) optional field among cuisines, dietary
tags, services and hours independently contributes zero characters to the
document — its part is empty and the truthiness filter drops it before
joining, so the document is the one built without that field's slot and an
omitted field can never produce two consecutive separator characters; an
absent zone, however, contributes the placeholder part "." (a lone period)
to the document. -/
theorem claim_C5_amended (row : RestaurantRow) (df_dishes : List DishRow) (top_n : Nat) :
    (row.zone = none → zonePart row.zone = ".") ∧
    (row.cuisines = none →
      make_restaurant_doc_with_dishes row df_dishes top_n =
        " ".intercalate
          (([row.name ++ " is a " ++ row.price_level ++ "-priced restaurant",
             zonePart row.zone,
             (if row.description_long != "" then row.description_long
              else row.description_short),
             optSentence "Dietary options available: " row.dietary_tags,
             optSentence "Services: " row.services,
             optSentence "Open " row.opening_hours] ++
            dishSection df_dishes row.id top_n).filter (fun p => p != ""))) ∧
    (row.dietary_tags = none →
      make_restaurant_doc_with_dishes row df_dishes top_n =
        " ".intercalate
          (([row.name ++ " is a " ++ row.price_level ++ "-priced restaurant",
             zonePart row.zone,
             (if row.description_long != "" then row.description_long
              else row.description_short),
             optSentence "Cuisine types: " row.cuisines,
             optSentence "Services: " row.services,
             optSentence "Open " row.opening_hours] ++
            dishSection df_dishes row.id top_n).filter (fun p => p != ""))) ∧
    (row.services = none →
      make_restaurant_doc_with_dishes row df_dishes top_n =
        " ".intercalate
          (([row.name ++ " is a " ++ row.price_level ++ "-priced restaurant",
             zonePart row.zone,
             (if row.description_long != "" then row.description_long
              else row.description_short),
             optSentence "Cuisine types: " row.cuisines,
             optSentence "Dietary options available: " row.dietary_tags,
             optSentence "Open " row.opening_hours] ++
            dishSection df_dishes row.id top_n).filter (fun p => p != ""))) ∧
    (row.opening_hours = none →
      make_restaurant_doc_with_dishes row df_dishes top_n =
        " ".intercalate
          (([row.name ++ " is a " ++ row.price_level ++ "-priced restaurant",
             zonePart row.zone,
             (if row.description_long != "" then row.description_long
              else row.description_short),
             optSentence "Cuisine types: " row.cuisines,
             optSentence "Dietary options available: " row.dietary_tags,
             optSentence "Services: " row.services] ++
            dishSection df_dishes row.id top_n).filter (fun p => p != ""))) := by
  refine ⟨fun hz => by rw [hz]; rfl, ?_, ?_, ?_, ?_⟩
  · intro h
    rw [make_restaurant_doc_with_dishes, restaurantParts, h]
    exact congrArg (fun l => " ".intercalate l)
      (filter_drop_empty
        [row.name ++ " is a " ++ row.price_level ++ "-priced restaurant",
         zonePart row.zone,
         (if row.description_long != "" then row.description_long
          else row.description_short)]
        ([optSentence "Dietary options available: " row.dietary_tags,
          optSentence "Services: " row.services,
          optSentence "Open " row.opening_hours] ++
         dishSection df_dishes row.id top_n))
  · intro h
    rw [make_restaurant_doc_with_dishes, restaurantParts, h]
    exact congrArg (fun l => " ".intercalate l)
      (filter_drop_empty
        [row.name ++ " is a " ++ row.price_level ++ "-priced restaurant",
         zonePart row.zone,
         (if row.description_long != "" then row.description_long
          else row.description_short),
         optSentence "Cuisine types: " row.cuisines]
        ([optSentence "Services: " row.services,
          optSentence "Open " row.opening_hours] ++
         dishSection df_dishes row.id top_n))
  · intro h
    rw [make_restaurant_doc_with_dishes, restaurantParts, h]
    exact congrArg (fun l => " ".intercalate l)
      (filter_drop_empty
        [row.name ++ " is a " ++ row.price_level ++ "-priced restaurant",
         zonePart row.zone,
         (if row.description_long != "" then row.description_long
          else row.description_short),
         optSentence "Cuisine types: " row.cuisines,
         optSentence "Dietary options available: " row.dietary_tags]
        ([optSentence "Open " row.opening_hours] ++
         dishSection df_dishes row.id top_n))
  · intro h
    rw [make_restaurant_doc_with_dishes, restaurantParts, h]
    exact congrArg (fun l => " ".intercalate l)
      (filter_drop_empty
        [row.name ++ " is a " ++ row.price_level ++ "-priced restaurant",
         zonePart row.zone,
         (if row.description_long != "" then row.description_long
          else row.description_short),
         optSentence "Cuisine types: " row.cuisines,
         optSentence "Dietary options available: " row.dietary_tags,
         optSentence "Services: " row.services]
        (dishSection df_dishes row.id top_n))

/-- Witness for the amended C5 at a concrete row: an absent cuisines field
alone already makes the document equal to the one built without the
cuisines slot, and the absent zone leaves the lone "." part. -/
theorem claim_C5_amended_witness :
    zonePart exRowNoZone.zone = "." ∧
    make_restaurant_doc_with_dishes exRowNoZone [] 10 =
      " ".intercalate
        (([exRowNoZone.name ++ " is a " ++ exRowNoZone.price_level ++ "-priced restaurant",
           zonePart exRowNoZone.zone,
           (if exRowNoZone.description_long != "" then exRowNoZone.description_long
            else exRowNoZone.description_short),
           optSentence "Dietary options available: " exRowNoZone.dietary_tags,
           optSentence "Services: " exRowNoZone.services,
           optSentence "Open " exRowNoZone.opening_hours] ++
          dishSection [] exRowNoZone.id 10).filter (fun p => p != "")) := by
  have h := claim_C5_amended exRowNoZone [] 10
  exact ⟨h.1 rfl, h.2.1 rfl⟩


/-! ### Claim C6 -/

theorem pySplitCh_cons (sep c : Char) (cs : List Char) :
    pySplitCh sep (c :: cs) =
      if c = sep then [] :: pySplitCh sep cs
      else
        match pySplitCh sep cs with
        | x :: xs => (c :: x) :: xs
        | [] => [[c]] := rfl

theorem pySplitCh_getD_zero (sep : Char) (l : List Char) :
    (pySplitCh sep l).getD 0 [] = l.takeWhile (fun c => c ≠ sep) := by
  induction l with
  | nil => rfl
  | cons c cs ih =>
    rw [pySplitCh_cons]
    by_cases hc : c = sep
    · rw [if_pos hc, List.takeWhile_cons, show (decide (c ≠ sep)) = false by simp [hc]]
      rfl
    · rw [if_neg hc, List.takeWhile_cons, show (decide (c ≠ sep)) = true by simp [hc]]
      cases hr : pySplitCh sep cs with
      | nil => rw [hr] at ih; simpa using congrArg (c :: ·) ih
      | cons x xs => rw [hr] at ih; simpa using congrArg (c :: ·) ih

theorem pySplitCh_getD_one (sep : Char) (l : List Char) :
    (pySplitCh sep l).getD 1 [] =
      ((l.dropWhile (fun c => c ≠ sep)).drop 1).takeWhile (fun c => c ≠ sep) := by
  induction l with
  | nil => rfl
  | cons c cs ih =>
    rw [pySplitCh_cons]
    by_cases hc : c = sep
    · rw [if_pos hc, List.dropWhile_cons, show (decide (c ≠ sep)) = false by simp [hc]]
      simpa using pySplitCh_getD_zero sep cs
    · rw [if_neg hc, List.dropWhile_cons, show (decide (c ≠ sep)) = true by simp [hc]]
      cases hr : pySplitCh sep cs with
      | nil => rw [hr] at ih; simpa using ih
      | cons x xs => rw [hr] at ih; simpa using ih

theorem getD_map_mk (l : List (List Char)) (i : Nat) :
    ((l.map (fun x => String.mk x)).getD i "") = String.mk (l.getD i []) := by
  induction l generalizing i with
  | nil => cases i <;> rfl
  | cons x xs ih => cases i with
    | zero => rfl
    | succ n => exact ih n

theorem pySplit_getD_zero (s : String) :
    (pySplit '-' s).getD 0 "" = beforeFirstDash s := by
  rw [pySplit, getD_map_mk, pySplitCh_getD_zero]; rfl

theorem pySplit_getD_one (s : String) :
    (pySplit '-' s).getD 1 "" = beforeFirstDash (afterFirstDash s) := by
  rw [pySplit, getD_map_mk, pySplitCh_getD_one]; rfl

/-- Counterexample to C6 as stated: for hours text "10:00-14:00-20:00" the
code stores closing_time = "14:00" (the second field of the split), while
the trimmed text after the first '-' is "14:00-20:00"; the two differ. -/
theorem claim_C6_counterexample :
    dictGet "closing_time" (make_metadata exRowTwoDash) = some (MVal.s "14:00") ∧
    pyStrip (afterFirstDash "10:00-14:00-20:00") = "14:00-20:00" ∧
    dictGet "closing_time" (make_metadata exRowTwoDash) ≠
      some (MVal.s (pyStrip (afterFirstDash "10:00-14:00-20:00"))) := by
  refine ⟨by decide, by decide, by decide⟩

/-- C6 amended: make_metadata parses the hours cell by splitting on '-';
opening_time is the trimmed text before the first '-' and closing_time is
the trimmed text strictly between the first '-' and the next '-' (the
trimmed remainder when the string holds a single '-'); when the cell is
absent or holds no '-', both fields are the empty string.  The parsing is a
total function — no exception is ever raised. -/
theorem claim_C6_amended (row : RestaurantRow) :
    (row.opening_hours = none →
       dictGet "opening_time" (make_metadata row) = some (MVal.s "") ∧
       dictGet "closing_time" (make_metadata row) = some (MVal.s "")) ∧
    (∀ h, row.opening_hours = some h → pyIn "-" h = false →
       dictGet "opening_time" (make_metadata row) = some (MVal.s "") ∧
       dictGet "closing_time" (make_metadata row) = some (MVal.s "")) ∧
    (∀ h, row.opening_hours = some h → pyIn "-" h = true →
       dictGet "opening_time" (make_metadata row) =
         some (MVal.s (pyStrip (beforeFirstDash h))) ∧
       dictGet "closing_time" (make_metadata row) =
         some (MVal.s (pyStrip (beforeFirstDash (afterFirstDash h))))) := by
  have hopen : dictGet "opening_time" (make_metadata row) =
      some (MVal.s (parseHours row.opening_hours).1) := by
    simp [make_metadata, dictGet]
  have hclose : dictGet "closing_time" (make_metadata row) =
      some (MVal.s (parseHours row.opening_hours).2) := by
    simp [make_metadata, dictGet]
  refine ⟨fun hn => ⟨?_, ?_⟩, fun h hsome hnd => ⟨?_, ?_⟩, fun h hsome hd => ⟨?_, ?_⟩⟩
  · rw [hopen, hn]; rfl
  · rw [hclose, hn]; rfl
  · rw [hopen, hsome, parseHours, if_neg (by simp [hnd])]
  · rw [hclose, hsome, parseHours, if_neg (by simp [hnd])]
  · rw [hopen, hsome, parseHours, if_pos hd]
    show some (MVal.s (pyStrip ((pySplit '-' h).getD 0 ""))) = _
    rw [pySplit_getD_zero]
  · rw [hclose, hsome, parseHours, if_pos hd]
    show some (MVal.s (pyStrip ((pySplit '-' h).getD 1 ""))) = _
    rw [pySplit_getD_one]

/-- Witness for the amended C6: the no-hours row gets empty time fields, and
a single-dash row gets the trimmed before/after-dash fields. -/
theorem claim_C6_amended_witness :
    (dictGet "opening_time" (make_metadata exRowNoZone) = some (MVal.s "") ∧
     dictGet "closing_time" (make_metadata exRowNoZone) = some (MVal.s "")) ∧
    (dictGet "opening_time" (make_metadata exRow) =
       some (MVal.s (pyStrip (beforeFirstDash "10:00-22:00"))) ∧
     dictGet "closing_time" (make_metadata exRow) =
       some (MVal.s (pyStrip (beforeFirstDash (afterFirstDash "10:00-22:00"))))) :=
  ⟨(claim_C6_amended exRowNoZone).1 rfl,
   (claim_C6_amended exRow).2.2 "10:00-22:00" rfl (by decide)⟩

/-! ### Claim C4 -/

theorem dishLe_total (a b : DishRow) : (dishLe a b || dishLe b a) = true := by
  rcases lt_trichotomy a.restaurant_id b.restaurant_id with h | h | h
  · simp [dishLe, h]
  · rcases le_total a.weight b.weight with hw | hw <;> simp [dishLe, h, hw]
  · simp [dishLe, h]

theorem dishLe_trans (a b c : DishRow) (hab : dishLe a b = true) (hbc : dishLe b c = true) :
    dishLe a c = true := by
  simp only [dishLe, Bool.or_eq_true, Bool.and_eq_true, decide_eq_true_eq,
    beq_iff_eq] at hab hbc ⊢
  rcases hab with h1 | ⟨h1, h1w⟩ <;> rcases hbc with h2 | ⟨h2, h2w⟩
  · exact Or.inl (lt_trans h1 h2)
  · exact Or.inl (h2 ▸ h1)
  · exact Or.inl (h1 ▸ h2)
  · exact Or.inr ⟨h1.trans h2, h2w.trans h1w⟩

/-- C4: on the loader's output ordering (dish rows sorted by restaurant_id
ascending, weight descending — `sortDishes`), the dish lines of
`make_restaurant_doc_with_dishes` are exactly the first top_n rows of the
dish table filtered to the restaurant's id; that selection is in
weight-descending order, and every selected dish weighs at least as much as
every dish of the same restaurant left out — i.e. "top" = highest weight. -/
theorem claim_C4 (l : List DishRow) (row : RestaurantRow) (top_n : Nat) :
    make_restaurant_doc_with_dishes row (sortDishes l) top_n =
      " ".intercalate
        ((restaurantParts row ++ dishSection (sortDishes l) row.id top_n).filter
          (fun p => p != "")) ∧
    dishSection (sortDishes l) row.id top_n =
      (if 0 < (((sortDishes l).filter (fun d => d.restaurant_id == row.id)).take top_n).length
       then "\nMenu highlights:" ::
         (((sortDishes l).filter (fun d => d.restaurant_id == row.id)).take top_n).map dishLine
       else []) ∧
    List.Pairwise (fun a b : DishRow => b.weight ≤ a.weight)
      (selectTopDishes (sortDishes l) row.id top_n) ∧
    (∀ x ∈ selectTopDishes (sortDishes l) row.id top_n,
     ∀ y ∈ ((sortDishes l).filter (fun d => d.restaurant_id == row.id)).drop top_n,
       y.weight ≤ x.weight) := by
  have hsorted : List.Pairwise (fun a b => dishLe a b = true) (sortDishes l) :=
    List.sorted_mergeSort dishLe_trans dishLe_total l
  have hfil : List.Pairwise (fun a b => dishLe a b = true)
      ((sortDishes l).filter (fun d => d.restaurant_id == row.id)) :=
    hsorted.filter _
  have hw : List.Pairwise (fun a b : DishRow => b.weight ≤ a.weight)
      ((sortDishes l).filter (fun d => d.restaurant_id == row.id)) := by
    refine hfil.imp_of_mem ?_
    intro a b ha hb hab
    have ha3 : a.restaurant_id = row.id := by simpa using (List.mem_filter.mp ha).2
    have hb3 : b.restaurant_id = row.id := by simpa using (List.mem_filter.mp hb).2
    simpa [dishLe, ha3, hb3] using hab
  have hsplit := List.take_append_drop top_n
      ((sortDishes l).filter (fun d => d.restaurant_id == row.id))
  rw [← hsplit] at hw
  have hparts := List.pairwise_append.mp hw
  exact ⟨rfl, rfl, hparts.1, fun x hx y hy => hparts.2.2 x hx y hy⟩

/-! ### Claim C7 -/

/-- C7: every lookup by id or name that finds no match returns the explicit
not-found sentinel — `none` from `get_by_id` and `get_restaurant_by_name`,
the "Restaurant not found" message from the walking-time tool — and, all
three being total functions, never raises. -/
theorem claim_C7 (coll : List Entry) (restaurant_id : Int) (nm fn tn : String)
    (radians cos sqrt round1 : Rat → Rat)
    (h1 : ∀ e ∈ coll, ¬ e.id = "rest_" ++ toString restaurant_id)
    (h2 : ∀ e ∈ coll, ¬ dictGet "name" e.metadata = some (MVal.s nm))
    (h3 : get_restaurant_by_name coll fn = none ∨ get_restaurant_by_name coll tn = none) :
    get_by_id coll restaurant_id = none ∧
    get_restaurant_by_name coll nm = none ∧
    get_walking_time radians cos sqrt round1 coll fn tn = "Restaurant not found" := by
  refine ⟨?_, ?_, ?_⟩
  · unfold get_by_id
    rw [List.find?_eq_none.mpr (fun x hx => by simpa using h1 x hx)]
    rfl
  · unfold get_restaurant_by_name
    rw [List.find?_eq_none.mpr (fun x hx => by simpa using h2 x hx)]
    rfl
  · unfold get_walking_time get_walking_time_core
    rcases h3 with h | h
    · rw [h]
    · rw [h]; cases get_restaurant_by_name coll fn <;> rfl

/-- Witness for C7: an unknown id, an unknown name, and a walking-time call
with an unknown destination all hit the not-found sentinels. -/
theorem claim_C7_witness :
    get_by_id [exEntry] 99 = none ∧
    get_restaurant_by_name [exEntry] "Nope" = none ∧
    get_walking_time (fun x => x) (fun x => x) (fun x => x) (fun x => x) [exEntry]
      "Andreu" "Nope" = "Restaurant not found" :=
  claim_C7 [exEntry] 99 "Nope" "Andreu" "Nope" (fun x => x) (fun x => x) (fun x => x)
    (fun x => x) (by decide) (by decide) (Or.inr (by decide))

/-! ### Claim C8 -/

theorem walk_result_ne (fn tn rest : String) :
    "<valid>\nWalking time from " ++ fn ++ " to " ++ tn ++ ": " ++ rest ++
      " minutes\n</valid>" ≠ "Restaurant not found" := by
  intro h
  have hlen := congrArg String.length h
  simp only [String.length_append] at hlen
  rw [show ("<valid>\nWalking time from ").length = 26 from rfl,
      show (" to ").length = 4 from rfl,
      show (": ").length = 2 from rfl,
      show (" minutes\n</valid>").length = 17 from rfl,
      show ("Restaurant not found").length = 20 from rfl] at hlen
  omega

/-- C8 amended: a restaurant whose zone/geo cannot be resolved keeps null
geo non-fatally, stored as the 0.0 sentinel in its metadata; but
get_walking_time does NOT exclude such a restaurant: it answers
"Restaurant not found" exactly when a name fails to resolve, and whenever
both names resolve it computes a walking time — using the 0.0 sentinel
coordinates if that is what the metadata holds. -/
theorem claim_C8_amended (radians cos sqrt round1 : Rat → Rat) (coll : List Entry)
    (fn tn : String) (row : RestaurantRow) :
    (row.lat = none → dictGet "latitude" (make_metadata row) = some (MVal.q 0)) ∧
    (row.lng = none → dictGet "longitude" (make_metadata row) = some (MVal.q 0)) ∧
    (get_walking_time radians cos sqrt round1 coll fn tn = "Restaurant not found" ↔
      (get_restaurant_by_name coll fn = none ∨ get_restaurant_by_name coll tn = none)) := by
  refine ⟨?_, ?_, ?_⟩
  · intro h; simp [make_metadata, dictGet, h]
  · intro h; simp [make_metadata, dictGet, h]
  · unfold get_walking_time get_walking_time_core
    cases hf : get_restaurant_by_name coll fn with
    | none => simp
    | some f =>
      cases ht : get_restaurant_by_name coll tn with
      | none => simp
      | some t =>
        constructor
        · intro h; exact absurd h (walk_result_ne fn tn _)
        · rintro (h | h) <;> exact Option.noConfusion h

/-- Counterexample to C8 as stated: the geo-less restaurant "Lost" carries
the 0.0 sentinel coordinates, still resolves by name, and get_walking_time
computes a walking time from those sentinel coordinates instead of
excluding it. -/
theorem claim_C8_counterexample :
    dictGet "latitude" (make_metadata exRowNoGeo) = some (MVal.q 0) ∧
    dictGet "longitude" (make_metadata exRowNoGeo) = some (MVal.q 0) ∧
    ¬ get_restaurant_by_name [exGeoEntry, exEntry] "Lost" = none ∧
    get_walking_time_core (fun x => x) (fun x => x) (fun x => x) (fun x => x)
      [exGeoEntry, exEntry] "Lost" "Andreu" =
      some (walking_time_minutes (fun x => x) (fun x => x) (fun x => x) 0 0 41 2) ∧
    get_walking_time (fun x => x) (fun x => x) (fun x => x) (fun x => x)
      [exGeoEntry, exEntry] "Lost" "Andreu" ≠ "Restaurant not found" := by
  refine ⟨by decide, by decide, by decide, rfl, ?_⟩
  unfold get_walking_time
  rw [show get_walking_time_core (fun x => x) (fun x => x) (fun x => x) (fun x => x)
      [exGeoEntry, exEntry] "Lost" "Andreu" =
      some (walking_time_minutes (fun x => x) (fun x => x) (fun x => x) 0 0 41 2) from rfl]
  exact walk_result_ne _ _ _

/-! ### Claim C9 -/

/-- C9: for every pair of resolvable restaurants, get_walking_time computes
exactly the spec's formula — latitude delta in meters = Δlat × 111320,
longitude delta = Δlon × 111320 × cos(mean latitude in radians), distance =
Euclidean combination, minutes = distance / 69 — and reports the result with
the one-decimal rounding routine applied. -/
theorem claim_C9 (radians cos sqrt round1 : Rat → Rat) (coll : List Entry)
    (fn tn : String) (f t : SearchResult)
    (hf : get_restaurant_by_name coll fn = some f)
    (ht : get_restaurant_by_name coll tn = some t) :
    (∀ from_lat from_lon to_lat to_lon : Rat,
       walking_time_minutes radians cos sqrt from_lat from_lon to_lat to_lon =
         spec_walking_minutes radians cos sqrt from_lat from_lon to_lat to_lon) ∧
    get_walking_time_core radians cos sqrt round1 coll fn tn =
      some (round1 (spec_walking_minutes radians cos sqrt
        (metaGetQ f.metadata "latitude") (metaGetQ f.metadata "longitude")
        (metaGetQ t.metadata "latitude") (metaGetQ t.metadata "longitude"))) := by
  have heq : ∀ a b c d : Rat,
      walking_time_minutes radians cos sqrt a b c d =
        spec_walking_minutes radians cos sqrt a b c d := fun a b c d => rfl
  refine ⟨heq, ?_⟩
  unfold get_walking_time_core
  rw [hf, ht]
  rfl

set_option maxRecDepth 16384 in
/-- Witness for C9 at a concrete pair of indexed restaurants. -/
theorem claim_C9_witness :
    get_walking_time_core (fun x => x) (fun x => x) (fun x => x) (fun x => x)
      [exGeoEntry, exEntry] "Lost" "Andreu" =
      some ((fun x : Rat => x) (spec_walking_minutes (fun x => x) (fun x => x) (fun x => x)
        (metaGetQ exGeoResult.metadata "latitude") (metaGetQ exGeoResult.metadata "longitude")
        (metaGetQ exResult.metadata "latitude") (metaGetQ exResult.metadata "longitude"))) :=
  (claim_C9 (fun x => x) (fun x => x) (fun x => x) (fun x => x) [exGeoEntry, exEntry]
    "Lost" "Andreu" exGeoResult exResult (by decide) (by decide)).2

/-! ### Claim C1 -/

/-- C1: the dish document builders exist as (total) functions and, for every
dish row whose owning restaurant is found in the restaurant table,
make_dish_metadata returns a metadata record denormalizing the owning
restaurant's name, zone and price_level, so the dish store can filter on
restaurant attributes without a join. -/
theorem claim_C1 (row : DishRow) (df_restaurants : List RestaurantRow) (r : RestaurantRow)
    (hr : df_restaurants.find? (fun x => x.id == row.restaurant_id) = some r) :
    dictGet "restaurant_name" (make_dish_metadata row df_restaurants) =
      some (MVal.s r.name) ∧
    dictGet "zone" (make_dish_metadata row df_restaurants) =
      some (MVal.s (match r.zone with | some z => z | none => "")) ∧
    dictGet "price_level" (make_dish_metadata row df_restaurants) =
      some (MVal.s r.price_level) := by
  refine ⟨?_, ?_, ?_⟩ <;> simp [make_dish_metadata, dictGet, hr]

/-- Witness for C1: the example dish denormalizes its restaurant's
name/zone/price_level. -/
theorem claim_C1_witness :
    dictGet "restaurant_name" (make_dish_metadata exDish [exRow]) =
      some (MVal.s "Andreu") ∧
    dictGet "zone" (make_dish_metadata exDish [exRow]) = some (MVal.s "north") ∧
    dictGet "price_level" (make_dish_metadata exDish [exRow]) = some (MVal.s "low") := by
  have h := claim_C1 exDish [exRow] exRow (by decide)
  exact ⟨h.1, h.2.1, h.2.2⟩

/-- Witness for the amended C8: the geo-less row maps to the 0.0 sentinel,
and a walking-time call with one unresolvable name hits the not-found
message. -/
theorem claim_C8_amended_witness :
    dictGet "latitude" (make_metadata exRowNoGeo) = some (MVal.q 0) ∧
    dictGet "longitude" (make_metadata exRowNoGeo) = some (MVal.q 0) ∧
    get_walking_time (fun x => x) (fun x => x) (fun x => x) (fun x => x)
      [exGeoEntry, exEntry] "Lost" "Nope" = "Restaurant not found" := by
  have h := claim_C8_amended (fun x => x) (fun x => x) (fun x => x) (fun x => x)
    [exGeoEntry, exEntry] "Lost" "Nope" exRowNoGeo
  exact ⟨h.1 rfl, h.2.1 rfl, h.2.2.mpr (Or.inr (by decide))⟩
